import Mathlib

/-!
Shallow embedding of the simulation coordinator in
`src/widgets/universe_grid.rs` of the game-of-life repository
(the `GameOfLifeUniverseGrid` widget): its run/halt/freeze state machine,
the background tick loop, and `random_seed`.

Modelling conventions:
* The widget's interior-mutability fields (`mode`, `frozen`,
  `prefers_dark_mode`, `universe`, `render_thread_stopper`, colors) become
  fields of a `GridState` record; each Rust method becomes a function
  `GridState → ... → GridState × List Effect`, where `Effect` records the
  observable side effects the method performs (`drawing_area.queue_draw()`,
  `notify(..)`, `glib::timeout_add_once`, thread spawning) in source order.
* The `std::sync::mpsc` stopper channel is modelled by identity: each `run()`
  allocates a fresh channel id (`nextChannelId`); `render_thread_stopper`
  stores the id of the receiver it currently holds (`stopper : Option Nat`).
  A send on the sender half of channel `cid` succeeds iff the receiver of
  channel `cid` is still stored, i.e. iff `stopper = some cid`; dropping the
  receiver (`halt`, or `run` replacing it) makes the send fail.
* One iteration of the spawned tick loop is `tick_loop_iteration`; it returns
  the updated state, the ordered trace of `LoopEvent`s the iteration
  performed, and how the iteration ended.  The Rust `MutexGuard` obtained by
  `universe.lock().unwrap()` lives to the end of the loop body's scope, so
  `lockRelease` is the last event of a completed iteration — after the
  `Redraw` send.  The `local_sender.send(UniverseGridRequest::Redraw).unwrap()`
  call panics when that send fails, which the model records as
  `LoopOutcome.panicked`.
-/

/-- Modelled from the spec: `UniverseGridMode` lives in `crate::models`, which
is not part of the provided sources.  Its two variants `Design` and `Run` are
taken from the exhaustive `match` in `set_mode`. -/
inductive UniverseGridMode where
  | Design : UniverseGridMode
  | Run : UniverseGridMode
deriving DecidableEq, Repr

/-- Modelled from the spec: `Universe` lives in `crate::models`, which is not
part of the provided sources.  The spec describes it as a rows × columns cell
matrix with accessors `rows()`/`columns()`; cells are alive/dead booleans
stored row-major. -/
structure Universe where
  rows : Nat
  columns : Nat
  cells : List Bool
deriving DecidableEq, Repr

/-- Modelled from the spec: `Universe::new_random(rows, columns)` allocates a
rows × columns grid whose cells are drawn from a random source; reseeding
preserves the requested dimensions.  The random source is made explicit as a
function from flat cell index to aliveness. -/
def Universe.new_random (rows columns : Nat) (rand : Nat → Bool) : Universe :=
  { rows := rows, columns := columns,
    cells := (List.range (rows * columns)).map rand }

/-- The request variants of the widget's notification channel
(`enum UniverseGridRequest`). -/
inductive UniverseGridRequest where
  | Freeze : UniverseGridRequest
  | Unfreeze : UniverseGridRequest
  | Mode : UniverseGridMode → UniverseGridRequest
  | DarkColorSchemePreference : Bool → UniverseGridRequest
  | Run : UniverseGridRequest
  | Halt : UniverseGridRequest
  | Redraw : UniverseGridRequest
deriving DecidableEq, Repr

/-- Observable side effects a coordinator method performs, in source order. -/
inductive Effect where
  | queueDraw : Effect
  | notify : String → Effect
  | scheduleTimeout : Nat → UniverseGridRequest → Effect
  | spawnTickThread : Nat → Effect
deriving DecidableEq, Repr

/-- Color constants from the top of `universe_grid.rs`. -/
def FG_COLOR_LIGHT : String := "#64baff"

def BG_COLOR_LIGHT : String := "#fafafa"

def FG_COLOR_DARK : String := "#C061CB"

def BG_COLOR_DARK : String := "#3D3846"

/-- The mutable state of the `GameOfLifeUniverseGrid` widget.  `stopper` is
the channel id of the `std::sync::mpsc::Receiver` currently held in
`render_thread_stopper` (if any); `nextChannelId` supplies fresh channel
identities for `run()`. -/
structure GridState where
  mode : UniverseGridMode
  frozen : Bool
  prefersDark : Bool
  fgColor : String
  bgColor : String
  univ : Universe
  stopper : Option Nat
  nextChannelId : Nat
deriving DecidableEq, Repr

/-- `is_running(&self) -> bool`: true iff a stopper receiver is stored. -/
def is_running (s : GridState) : Bool :=
  s.stopper.isSome

/-- `set_mode(&self, value)`: stores the new mode only when not running; the
`notify("mode")` signal is emitted unconditionally. -/
def set_mode (s : GridState) (value : UniverseGridMode) : GridState × List Effect :=
  let s1 := if is_running s then s else { s with mode := value }
  (s1, [Effect.notify "mode"])

/-- `set_frozen(&self, value)`: queues a draw when `value` is `false`, then
stores the flag. -/
def set_frozen (s : GridState) (value : Bool) : GridState × List Effect :=
  let effects := if value then ([] : List Effect) else [Effect.queueDraw]
  ({ s with frozen := value }, effects)

/-- `set_prefers_dark_mode(&self, prefers_dark_variant)`: stores the flag and
swaps the foreground/background colors accordingly. -/
def set_prefers_dark_mode (s : GridState) (prefers : Bool) : GridState × List Effect :=
  if prefers then
    ({ s with prefersDark := prefers, fgColor := FG_COLOR_DARK, bgColor := BG_COLOR_DARK }, [])
  else
    ({ s with prefersDark := prefers, fgColor := FG_COLOR_LIGHT, bgColor := BG_COLOR_LIGHT }, [])

/-- `halt(&self)`: takes the stored stopper receiver out (dropping it) and
notifies the `is-running` property. -/
def halt (s : GridState) : GridState × List Effect :=
  ({ s with stopper := none }, [Effect.notify "is-running"])

/-- `run(&self)`: `set_mode(Run)`, create a fresh stopper channel, store its
receiver (replacing — and thereby dropping — any previous one), spawn the
tick-loop thread owning the sender half, notify `is-running`. -/
def run (s : GridState) : GridState × List Effect :=
  let p := set_mode s UniverseGridMode.Run
  let cid := p.1.nextChannelId
  let s2 := { p.1 with stopper := some cid, nextChannelId := cid + 1 }
  (s2, p.2 ++ [Effect.spawnTickThread cid, Effect.notify "is-running"])

/-- `process_action(&self, action)`: the consumer-side dispatch attached to
the widget's glib channel receiver.  (It always returns `Continue(true)`;
that constant is omitted.) -/
def process_action (s : GridState) (action : UniverseGridRequest) : GridState × List Effect :=
  match action with
  | UniverseGridRequest.Freeze => set_frozen s true
  | UniverseGridRequest.Unfreeze => set_frozen s false
  | UniverseGridRequest.Mode m => set_mode s m
  | UniverseGridRequest.Run => run s
  | UniverseGridRequest.Halt => halt s
  | UniverseGridRequest.Redraw => (s, [Effect.queueDraw])
  | UniverseGridRequest.DarkColorSchemePreference b => set_prefers_dark_mode s b

/-- `random_seed(&self)`: under the universe lock, read the current
dimensions, replace the universe with `Universe::new_random` of the same
dimensions, then `self.process_action(Redraw)`. -/
def random_seed (s : GridState) (rand : Nat → Bool) : GridState × List Effect :=
  let rows := s.univ.rows
  let cols := s.univ.columns
  let s1 := { s with univ := Universe.new_random rows cols rand }
  process_action s1 UniverseGridRequest.Redraw

/-- The resize handler installed by `setup_drawing_area`:
`set_frozen(true)`, then schedule a 500 ms one-shot timeout that sends
`Unfreeze` on the widget's channel. -/
def on_resize (s : GridState) : GridState × List Effect :=
  let p := set_frozen s true
  (p.1, p.2 ++ [Effect.scheduleTimeout 500 UniverseGridRequest.Unfreeze])

/-- `render` paints the grid only when not frozen: whether the draw function
body executes. -/
def render_paints (s : GridState) : Bool :=
  !s.frozen

/-- The ordered observable events of one tick-loop iteration. -/
inductive LoopEvent where
  | sendStopper : Bool → LoopEvent
  | sleep : Nat → LoopEvent
  | lockAcquire : LoopEvent
  | tickUniverse : LoopEvent
  | sendRedraw : LoopEvent
  | lockRelease : LoopEvent
deriving DecidableEq, Repr

/-- How one tick-loop iteration ends: `break` out of the loop, continue to
the next iteration, or panic (a failed `.unwrap()`). -/
inductive LoopOutcome where
  | breakLoop : LoopOutcome
  | continueLoop : LoopOutcome
  | panicked : LoopOutcome
deriving DecidableEq, Repr

/-- One iteration of the loop body spawned by `run()` for the thread owning
the sender half of stopper channel `cid`.  The iteration:
sends `()` on the stopper channel (breaking out on failure), sleeps 50 ms,
locks the universe, calls `tick()` (abstracted as `tickFn`, since
`Universe::tick` lives outside the provided sources), then sends `Redraw`
with `.unwrap()` — panicking if the widget-channel receiver
(`redrawReceiverAlive`) is gone.  The `MutexGuard` is dropped at the end of
the body's scope, so `lockRelease` follows `sendRedraw`. -/
def tick_loop_iteration (tickFn : Universe → Universe) (cid : Nat)
    (s : GridState) (redrawReceiverAlive : Bool) :
    GridState × List LoopEvent × LoopOutcome :=
  if s.stopper = some cid then
    let s1 := { s with univ := tickFn s.univ }
    if redrawReceiverAlive then
      (s1, ([LoopEvent.sendStopper true, LoopEvent.sleep 50, LoopEvent.lockAcquire,
             LoopEvent.tickUniverse, LoopEvent.sendRedraw, LoopEvent.lockRelease],
            LoopOutcome.continueLoop))
    else
      (s1, ([LoopEvent.sendStopper true, LoopEvent.sleep 50, LoopEvent.lockAcquire,
             LoopEvent.tickUniverse, LoopEvent.sendRedraw],
            LoopOutcome.panicked))
  else
    (s, ([LoopEvent.sendStopper false], LoopOutcome.breakLoop))

/-- Scans an event trace and reports whether a `sendRedraw` occurs while the
universe lock is held (the boolean argument tracks whether the lock is
currently held). -/
def sendWhileLockHeld : List LoopEvent → Bool → Bool
  | [], _ => false
  | LoopEvent.lockAcquire :: rest, _ => sendWhileLockHeld rest true
  | LoopEvent.lockRelease :: rest, _ => sendWhileLockHeld rest false
  | LoopEvent.sendRedraw :: rest, held => held || sendWhileLockHeld rest held
  | _ :: rest, held => sendWhileLockHeld rest held

/-- A concrete 10 × 20 universe, all cells dead. -/
def universe0 : Universe :=
  { rows := 10, columns := 20, cells := List.replicate 200 false }

/-- A concrete idle coordinator state (as after widget construction, which
sets mode `Run`, light foreground, dark background). -/
def idleState : GridState :=
  { mode := UniverseGridMode.Run, frozen := false, prefersDark := false,
    fgColor := FG_COLOR_LIGHT, bgColor := BG_COLOR_DARK,
    univ := universe0, stopper := none, nextChannelId := 0 }

/-- A concrete running coordinator state: a tick loop on channel 0 is live. -/
def runningState : GridState :=
  { idleState with stopper := some 0, nextChannelId := 1 }

/-- A concrete frozen coordinator state. -/
def frozenState : GridState :=
  { idleState with frozen := true }

/-- C1: after `halt()`, `is_running()` is false; and when `is_running()` was
already false (Idle), `halt()` leaves the whole coordinator state (mode,
frozen flag, universe handle, stopper) unchanged. -/
theorem halt_stops_and_is_idempotent (s : GridState) :
    is_running (halt s).1 = false ∧ (is_running s = false → (halt s).1 = s) := by
  constructor
  · rfl
  · intro h
    cases s with
    | mk m f p fg bg u st n =>
      cases st with
      | none => rfl
      | some c => simp [is_running] at h

/-- Witness for C1 at the concrete idle state. -/
theorem halt_stops_and_is_idempotent_witness :
    is_running (halt idleState).1 = false ∧ (halt idleState).1 = idleState := by
  have h := halt_stops_and_is_idempotent idleState
  exact ⟨h.1, h.2 (by decide)⟩

/-- C2: while `is_running()` is true, `set_mode` leaves the stored mode
unchanged. -/
theorem set_mode_rejected_while_running (s : GridState) (v : UniverseGridMode)
    (h : is_running s = true) : (set_mode s v).1.mode = s.mode := by
  simp [set_mode, h]

/-- Witness for C2 at the concrete running state. -/
theorem set_mode_rejected_while_running_witness :
    is_running runningState = true ∧
    (set_mode runningState UniverseGridMode.Design).1.mode = runningState.mode :=
  ⟨by decide, set_mode_rejected_while_running runningState UniverseGridMode.Design (by decide)⟩

/-- C3: `random_seed()` replaces the shared universe by a freshly seeded one
with the same `rows()` and `columns()` as the one it replaced, whatever the
prior state and random source, and triggers a redraw. -/
theorem random_seed_preserves_dimensions (s : GridState) (rand : Nat → Bool) :
    (random_seed s rand).1.univ.rows = s.univ.rows ∧
    (random_seed s rand).1.univ.columns = s.univ.columns ∧
    Effect.queueDraw ∈ (random_seed s rand).2 := by
  refine ⟨rfl, rfl, ?_⟩
  simp [random_seed, process_action]

/-- C4: after `halt()` drops the stopper receiver, the tick loop's
per-iteration send on the stopper channel fails and the iteration breaks out
of the loop — the outcome is `breakLoop`, not `panicked`, and the state is
untouched. -/
theorem halted_stopper_send_breaks_loop (s : GridState) (cid : Nat)
    (tickFn : Universe → Universe) (b : Bool) :
    tick_loop_iteration tickFn cid (halt s).1 b
      = ((halt s).1, ([LoopEvent.sendStopper false], LoopOutcome.breakLoop)) := by
  simp [tick_loop_iteration, halt]

/-- C5 counterexample: with the tick loop live on channel 0 and the widget
channel's receiver gone, the iteration ends in a panic (the `.unwrap()` on
the failed `Redraw` send) — the notification is not silently dropped. -/
theorem redraw_send_failure_panics_cex :
    (tick_loop_iteration id 0 runningState false).2.2 = LoopOutcome.panicked := by
  decide

/-- C5 amended: when the widget channel's receiver has shut down, the tick
loop's `Redraw` send failure is unwrapped, so the producer thread panics (it
does not retry, but neither does it drop the notification silently). -/
theorem redraw_send_failure_panics (s : GridState) (cid : Nat)
    (tickFn : Universe → Universe) (h : s.stopper = some cid) :
    (tick_loop_iteration tickFn cid s false).2.2 = LoopOutcome.panicked := by
  simp [tick_loop_iteration, h]

/-- Witness for amended C5 at the concrete running state. -/
theorem redraw_send_failure_panics_witness :
    runningState.stopper = some 0 ∧
    (tick_loop_iteration (fun u => u) 0 runningState false).2.2 = LoopOutcome.panicked :=
  ⟨by decide, redraw_send_failure_panics runningState 0 (fun u => u) (by decide)⟩

/-- C6 counterexample: in a completed tick-loop iteration the `Redraw` send
occurs while the universe lock is held (the `MutexGuard` is dropped only at
the end of the loop body, after the send). -/
theorem redraw_sent_while_lock_held_cex :
    sendWhileLockHeld (tick_loop_iteration id 0 runningState true).2.1 false = true := by
  decide

/-- C6 amended: every completed tick-loop iteration performs, in order,
stopper send, sleep, lock acquire, tick, `Redraw` send, lock release — the
lock is released only at the end of the iteration, after the `Redraw` send,
not before it. -/
theorem lock_released_after_redraw_send (s : GridState) (cid : Nat)
    (tickFn : Universe → Universe) (h : s.stopper = some cid) :
    (tick_loop_iteration tickFn cid s true).2.1
      = [LoopEvent.sendStopper true, LoopEvent.sleep 50, LoopEvent.lockAcquire,
         LoopEvent.tickUniverse, LoopEvent.sendRedraw, LoopEvent.lockRelease] := by
  simp [tick_loop_iteration, h]

/-- Witness for amended C6 at the concrete running state. -/
theorem lock_released_after_redraw_send_witness :
    runningState.stopper = some 0 ∧
    (tick_loop_iteration (fun u => u) 0 runningState true).2.1
      = [LoopEvent.sendStopper true, LoopEvent.sleep 50, LoopEvent.lockAcquire,
         LoopEvent.tickUniverse, LoopEvent.sendRedraw, LoopEvent.lockRelease] :=
  ⟨by decide, lock_released_after_redraw_send runningState 0 (fun u => u) (by decide)⟩

/-- C7: when the coordinator is frozen, `set_frozen(false)` — directly or via
processing an `Unfreeze` request — clears the flag and queues a redraw as
part of the same transition. -/
theorem unfreeze_triggers_redraw (s : GridState) (h : s.frozen = true) :
    ((set_frozen s false).1.frozen = false ∧
      Effect.queueDraw ∈ (set_frozen s false).2) ∧
    ((process_action s UniverseGridRequest.Unfreeze).1.frozen = false ∧
      Effect.queueDraw ∈ (process_action s UniverseGridRequest.Unfreeze).2) := by
  simp [set_frozen, process_action]

/-- Witness for C7 at the concrete frozen state. -/
theorem unfreeze_triggers_redraw_witness :
    frozenState.frozen = true ∧
    (((set_frozen frozenState false).1.frozen = false ∧
       Effect.queueDraw ∈ (set_frozen frozenState false).2) ∧
     ((process_action frozenState UniverseGridRequest.Unfreeze).1.frozen = false ∧
       Effect.queueDraw ∈ (process_action frozenState UniverseGridRequest.Unfreeze).2)) :=
  ⟨by decide, unfreeze_triggers_redraw frozenState (by decide)⟩

/-- C8: `set_frozen` changes only the frozen flag — stopper, `is_running`,
mode and universe are untouched; the tick-loop iteration's universe update
and outcome are independent of the frozen flag; only `render` consults the
flag, painting exactly when not frozen. -/
theorem freeze_only_affects_rendering (s : GridState) (v : Bool) (cid : Nat)
    (tickFn : Universe → Universe) (b : Bool) :
    (set_frozen s v).1.stopper = s.stopper ∧
    is_running (set_frozen s v).1 = is_running s ∧
    (set_frozen s v).1.mode = s.mode ∧
    (set_frozen s v).1.univ = s.univ ∧
    (tick_loop_iteration tickFn cid (set_frozen s v).1 b).1.univ
      = (tick_loop_iteration tickFn cid s b).1.univ ∧
    (tick_loop_iteration tickFn cid (set_frozen s v).1 b).2.2
      = (tick_loop_iteration tickFn cid s b).2.2 ∧
    render_paints s = !s.frozen := by
  refine ⟨rfl, rfl, rfl, rfl, ?_, ?_, rfl⟩ <;>
    by_cases h : s.stopper = some cid <;>
      simp [tick_loop_iteration, set_frozen, h] <;>
      cases b <;> simp

/-- C9: the resize handler freezes the grid immediately and schedules a
500 ms one-shot `Unfreeze` request; processing that request unfreezes the
grid so rendering resumes. -/
theorem resize_freezes_then_schedules_unfreeze (s : GridState) :
    (on_resize s).1.frozen = true ∧
    Effect.scheduleTimeout 500 UniverseGridRequest.Unfreeze ∈ (on_resize s).2 ∧
    (process_action (on_resize s).1 UniverseGridRequest.Unfreeze).1.frozen = false ∧
    render_paints (process_action (on_resize s).1 UniverseGridRequest.Unfreeze).1 = true := by
  simp [on_resize, set_frozen, process_action, render_paints]

/-- C10: calling `run()` while already running replaces the stored stopper
receiver with a fresh one (so at most one is ever stored), leaves
`is_running()` true and the mode unchanged (the inner `set_mode(Run)` is
rejected), and the previous tick loop's next stopper send fails, making that
loop break out. -/
theorem run_while_running_replaces_stopper (s : GridState) (c : Nat)
    (tickFn : Universe → Universe) (b : Bool)
    (h1 : s.stopper = some c) (h2 : c < s.nextChannelId) :
    is_running (run s).1 = true ∧
    (run s).1.mode = s.mode ∧
    (run s).1.stopper = some s.nextChannelId ∧
    (tick_loop_iteration tickFn c (run s).1 b).2.2 = LoopOutcome.breakLoop := by
  have hrun : is_running s = true := by simp [is_running, h1]
  refine ⟨?_, ?_, ?_, ?_⟩
  · simp [run, is_running]
  · simp [run, set_mode, hrun]
  · simp [run, set_mode, hrun]
  · have hne : (run s).1.stopper ≠ some c := by
      simp [run, set_mode, hrun]
      omega
    simp [tick_loop_iteration, hne]

/-- Witness for C10 at the concrete running state. -/
theorem run_while_running_replaces_stopper_witness :
    runningState.stopper = some 0 ∧ 0 < runningState.nextChannelId ∧
    (is_running (run runningState).1 = true ∧
     (run runningState).1.mode = runningState.mode ∧
     (run runningState).1.stopper = some runningState.nextChannelId ∧
     (tick_loop_iteration (fun u => u) 0 (run runningState).1 true).2.2
       = LoopOutcome.breakLoop) :=
  ⟨by decide, by decide,
   run_while_running_replaces_stopper runningState 0 (fun u => u) true
     (by decide) (by decide)⟩
